import Mathlib

/-!
Verification of the annotation-loading transforms in
`mmocr/datasets/transforms/loading.py`: the detection/spotting loader
`LoadOCRAnnotations` and the key-information-extraction loader
`LoadKIEAnnotations`.  The embedding models one sample record (a Python
dict) as a structure of optional fields, each per-instance annotation as a
record of optional fields (a missing dict key is `none`), and each loading
step as a function that either attaches its derived field or fails like a
Python `KeyError` would, leaving fields written by earlier steps attached.
NumPy integer arrays are `List Int` / `List (List Int)`; the bitwise `&`
on int32 values is `Int.land` (two's-complement bitwise and, which int32
`&` agrees with on in-range values).
-/

namespace MMOCR

/-- One entry of `results['instances']`: a per-object annotation record.
A field the dict does not contain is `none`. -/
structure Instance where
  bbox : Option (List Int) := none
  bbox_label : Option Int := none
  polygon : Option (List Int) := none
  ignore : Option Bool := none
  text : Option String := none
  edge_label : Option Int := none
deriving Repr, DecidableEq, Inhabited

/-- The sample record (`results` dict): the `instances` input plus the
optional derived fields either loader may attach. -/
structure SampleRecord where
  instances : List Instance
  img_shape : Option (Nat × Nat) := none
  ori_shape : Option (Nat × Nat) := none
  gt_bboxes : Option (List (List Int)) := none
  gt_bboxes_labels : Option (List Int) := none
  gt_polygons : Option (List (List Int)) := none
  gt_ignored : Option (List Bool) := none
  gt_texts : Option (List String) := none
  gt_edges_labels : Option (List (List Int)) := none
deriving Repr, DecidableEq

/-- A per-sample loading failure: an instance lacks a field the active
configuration requires (Python `KeyError`; the spec's `MissingFieldError`). -/
inductive LoadError where
  | MissingFieldError (field : String)
deriving Repr, DecidableEq

/-- A construction-time failure (Python `AssertionError` in `__init__`;
the spec's `ConfigurationError`). -/
inductive ConfigError where
  | ConfigurationError
deriving Repr, DecidableEq

/-- The loop `for instance in results['instances']: out.append(f(instance))`:
collects `f` of every instance, failing if any instance lacks the field. -/
def collect {β : Type} (f : Instance → Option β) : List Instance → Option (List β)
  | [] => some []
  | a :: l =>
    match f a, collect f l with
    | some b, some bs => some (b :: bs)
    | _, _ => none

/-- Configuration of `LoadOCRAnnotations` as fixed by `__init__`
(`with_ignore` is derived there as `with_bbox or with_polygon`). -/
structure LoadOCRAnnotations where
  with_bbox : Bool
  with_label : Bool
  with_polygon : Bool
  with_text : Bool
  with_ignore : Bool
deriving Repr, DecidableEq

/-- `LoadOCRAnnotations.__init__`: stores the four switches and derives
`with_ignore = with_bbox or with_polygon`. -/
def mkLoadOCRAnnotations (with_bbox with_label with_polygon with_text : Bool) :
    LoadOCRAnnotations :=
  { with_bbox := with_bbox, with_label := with_label,
    with_polygon := with_polygon, with_text := with_text,
    with_ignore := with_bbox || with_polygon }

/-- Configuration of `LoadKIEAnnotations` as fixed by `__init__`; `kv` is
`some (key_node_idx, value_node_idx)` when both were supplied (the Python
object only has the attributes in that case, cf. the `hasattr` check). -/
structure LoadKIEAnnotations where
  with_bbox : Bool
  with_label : Bool
  with_text : Bool
  directed : Bool
  kv : Option (Int × Int)
deriving Repr, DecidableEq

/-- `LoadKIEAnnotations.__init__`: supplying exactly one of `key_node_idx`
and `value_node_idx` trips the assertion; otherwise construction succeeds. -/
def mkLoadKIEAnnotations (with_bbox with_label with_text directed : Bool)
    (key_node_idx value_node_idx : Option Int) :
    Except ConfigError LoadKIEAnnotations :=
  match key_node_idx, value_node_idx with
  | none, none =>
    .ok { with_bbox := with_bbox, with_label := with_label,
          with_text := with_text, directed := directed, kv := none }
  | some k, some v =>
    .ok { with_bbox := with_bbox, with_label := with_label,
          with_text := with_text, directed := directed, kv := some (k, v) }
  | _, _ => .error .ConfigurationError

/-- Line 295: `edge_labels[:, None] == edge_labels[None, :]` cast to int32 —
entry (i, j) is 1 when `edge_label[i] == edge_label[j]`, else 0. -/
def connectivityMatrix (edge_labels : List Int) : List (List Int) :=
  edge_labels.map fun a => edge_labels.map fun b => if a = b then 1 else 0

/-- Line 299: `(edge_labels & bbox_labels == 1).astype(np.int32)`.  Python
parses this as `(edge_labels & bbox_labels) == 1`; broadcasting the (N,)
vector `bbox_labels` against the (N, N) matrix pairs entry (i, j) with
`bbox_labels[j]`, the column's label. -/
def directedMask (bbox_labels : List Int) (m : List (List Int)) :
    List (List Int) :=
  m.map fun row =>
    (row.zip bbox_labels).map fun p => if Int.land p.1 p.2 = 1 then 1 else 0

/-- Lines 302-306: the outer product of the boolean masks
`bbox_labels == key_node_idx` (rows) and `bbox_labels == value_node_idx`
(columns); entries outside it are set to -1. -/
def keyValueMask (key_node_idx value_node_idx : Int) (bbox_labels : List Int)
    (m : List (List Int)) : List (List Int) :=
  (bbox_labels.zip m).map fun p =>
    (bbox_labels.zip p.2).map fun q =>
      if p.1 = key_node_idx ∧ q.1 = value_node_idx then q.2 else -1

/-- Line 308: `np.fill_diagonal(edge_labels, -1)`. -/
def fillDiagonal (m : List (List Int)) : List (List Int) :=
  m.enum.map fun p => p.2.enum.map fun q => if p.1 = q.1 then -1 else q.2

/-- The edge-matrix pipeline of `LoadKIEAnnotations._load_labels`
(lines 293-308): connectivity, then the `directed` mask, then the
key/value mask, then the diagonal fill. -/
def computeEdgeLabels (directed : Bool) (kv : Option (Int × Int))
    (bbox_labels edge_labels : List Int) : List (List Int) :=
  let m := connectivityMatrix edge_labels
  let m := if directed then directedMask bbox_labels m else m
  let m := match kv with
    | some p => keyValueMask p.1 p.2 bbox_labels m
    | none => m
  fillDiagonal m

/-- The per-instance reads of `_load_labels`' loop (lines 289-291):
`instance['bbox_label']` and `instance['edge_label']`. -/
def loadLabelPair (i : Instance) : Option (Int × Int) :=
  match i.bbox_label, i.edge_label with
  | some b, some e => some (b, e)
  | _, _ => none

/-- `LoadKIEAnnotations._load_labels` up to the final writes: the
bbox-label vector and the finished edge-label matrix. -/
def loadKIELabels (c : LoadKIEAnnotations) (insts : List Instance) :
    Option (List Int × List (List Int)) :=
  match collect loadLabelPair insts with
  | none => none
  | some pairs =>
    let bbox_labels := pairs.map Prod.fst
    let edge_labels := pairs.map Prod.snd
    some (bbox_labels, computeEdgeLabels c.directed c.kv bbox_labels edge_labels)

/-- Sequencing of loading steps on the mutable record: a failed step keeps
the record as it stood (the exception propagates, writes so far remain). -/
def andThen (p : SampleRecord × Option LoadError)
    (f : SampleRecord → SampleRecord × Option LoadError) :
    SampleRecord × Option LoadError :=
  match p with
  | (r, none) => f r
  | (r, some e) => (r, some e)

/-- One `if enabled: self._load_x(results)` step: when enabled, either
attaches the derived field or fails with the missing field's name, writing
nothing (the Python loop raises before the `results[...] =` line). -/
def loadStep (enabled : Bool) (field : String)
    (load : SampleRecord → Option SampleRecord) (r : SampleRecord) :
    SampleRecord × Option LoadError :=
  if enabled then
    match load r with
    | some r' => (r', none)
    | none => (r, some (.MissingFieldError field))
  else (r, none)

/-- Modelled from the spec: the inherited base loader's box step — read
`instances[i]['bbox']` for every instance, in order, into `gt_bboxes`
(numeric passthrough with type coercion; the base class is external to
this repository). -/
def loadBboxesStep (r : SampleRecord) : Option SampleRecord :=
  (collect Instance.bbox r.instances).map fun l => { r with gt_bboxes := some l }

/-- Modelled from the spec: the inherited base loader's label step as used
by the detection loader — read `instances[i]['bbox_label']` for every
instance, in order, into `gt_bboxes_labels`. -/
def loadBboxLabelsStep (r : SampleRecord) : Option SampleRecord :=
  (collect Instance.bbox_label r.instances).map fun l =>
    { r with gt_bboxes_labels := some l }

/-- `LoadOCRAnnotations._load_polygons` (lines 121-134). -/
def loadPolygonsStep (r : SampleRecord) : Option SampleRecord :=
  (collect Instance.polygon r.instances).map fun l =>
    { r with gt_polygons := some l }

/-- `_load_texts` (lines 136-148 and 270-279, identical loops). -/
def loadTextsStep (r : SampleRecord) : Option SampleRecord :=
  (collect Instance.text r.instances).map fun l => { r with gt_texts := some l }

/-- `LoadOCRAnnotations._load_ignore_flags` (lines 107-119). -/
def loadIgnoreFlagsStep (r : SampleRecord) : Option SampleRecord :=
  (collect Instance.ignore r.instances).map fun l =>
    { r with gt_ignored := some l }

/-- The overridden `LoadKIEAnnotations._load_labels` (lines 281-311),
writing `gt_edges_labels` and `gt_bboxes_labels`. -/
def loadKIELabelsStep (c : LoadKIEAnnotations) (r : SampleRecord) :
    Option SampleRecord :=
  (loadKIELabels c r.instances).map fun p =>
    { r with gt_bboxes_labels := some p.1, gt_edges_labels := some p.2 }

/-- Lines 323-324: copy `img_shape` into `ori_shape` when the latter is
absent (`results['img_shape']` raises when the dict lacks it). -/
def oriShapeStep (r : SampleRecord) : SampleRecord × Option LoadError :=
  match r.ori_shape with
  | some _ => (r, none)
  | none =>
    match r.img_shape with
    | some s => ({ r with ori_shape := some s }, none)
    | none => (r, some (.MissingFieldError "img_shape"))

/-- `LoadOCRAnnotations.transform` (lines 150-167): the base loader's box
and label steps, then polygons, then texts, then ignore flags. -/
def LoadOCRAnnotations.transform (c : LoadOCRAnnotations) (r : SampleRecord) :
    SampleRecord × Option LoadError :=
  andThen (andThen (andThen (andThen
    (loadStep c.with_bbox "bbox" loadBboxesStep r)
    (loadStep c.with_label "bbox_label" loadBboxLabelsStep))
    (loadStep c.with_polygon "polygon" loadPolygonsStep))
    (loadStep c.with_text "text" loadTextsStep))
    (loadStep c.with_ignore "ignore" loadIgnoreFlagsStep)

/-- `LoadKIEAnnotations.transform` (lines 313-328): the `ori_shape` copy,
the base loader's box step, the overridden label step, then texts. -/
def LoadKIEAnnotations.transform (c : LoadKIEAnnotations) (r : SampleRecord) :
    SampleRecord × Option LoadError :=
  andThen (andThen (andThen
    (oriShapeStep r)
    (loadStep c.with_bbox "bbox" loadBboxesStep))
    (loadStep c.with_label "label" (loadKIELabelsStep c)))
    (loadStep c.with_text "text" loadTextsStep)

/-- `ori_shape` after lines 323-324: the existing value if present,
otherwise `img_shape`. -/
def orShape (a b : Option (Nat × Nat)) : Option (Nat × Nat) :=
  match a with
  | some s => some s
  | none => b

/-- Closed form of a successful `LoadOCRAnnotations.transform` run: each
enabled switch's field is the collected per-instance values, everything
else is untouched. -/
def applyOCR (c : LoadOCRAnnotations) (r : SampleRecord) : SampleRecord :=
  { r with
    gt_bboxes := if c.with_bbox then collect Instance.bbox r.instances else r.gt_bboxes,
    gt_bboxes_labels :=
      if c.with_label then collect Instance.bbox_label r.instances
      else r.gt_bboxes_labels,
    gt_polygons :=
      if c.with_polygon then collect Instance.polygon r.instances
      else r.gt_polygons,
    gt_texts := if c.with_text then collect Instance.text r.instances else r.gt_texts,
    gt_ignored :=
      if c.with_ignore then collect Instance.ignore r.instances
      else r.gt_ignored }

/-- Closed form of a successful `LoadKIEAnnotations.transform` run. -/
def applyKIE (c : LoadKIEAnnotations) (r : SampleRecord) : SampleRecord :=
  { r with
    ori_shape := orShape r.ori_shape r.img_shape,
    gt_bboxes := if c.with_bbox then collect Instance.bbox r.instances else r.gt_bboxes,
    gt_bboxes_labels :=
      if c.with_label then (loadKIELabels c r.instances).map Prod.fst
      else r.gt_bboxes_labels,
    gt_edges_labels :=
      if c.with_label then (loadKIELabels c r.instances).map Prod.snd
      else r.gt_edges_labels,
    gt_texts := if c.with_text then collect Instance.text r.instances else r.gt_texts }

/-- A KIE instance with the two label fields set. -/
def kieInstance (b e : Int) : Instance :=
  { bbox_label := some b, edge_label := some e }

/-- KIE configuration with `directed` set and no key/value pair. -/
def kieDirectedCfg : LoadKIEAnnotations :=
  { with_bbox := true, with_label := true, with_text := true,
    directed := true, kv := none }

/-- KIE configuration with neither `directed` nor a key/value pair. -/
def kiePlainCfg : LoadKIEAnnotations :=
  { with_bbox := true, with_label := true, with_text := true,
    directed := false, kv := none }

/-- KIE configuration with `key_node_idx = 0`, `value_node_idx = 1`. -/
def kieKVCfg : LoadKIEAnnotations :=
  { with_bbox := true, with_label := true, with_text := true,
    directed := false, kv := some (0, 1) }

/-- A fully populated detection/spotting instance. -/
def fullInstance : Instance :=
  { bbox := some [0, 0, 1, 1], bbox_label := some 0,
    polygon := some [0, 0, 1, 0, 1, 1], ignore := some false,
    text := some "a", edge_label := some 1 }

/-- A one-instance sample record with an image shape. -/
def fullRecord : SampleRecord :=
  { instances := [fullInstance], img_shape := some (2, 2) }

/-- Detection configuration with all four switches on. -/
def ocrFullCfg : LoadOCRAnnotations := mkLoadOCRAnnotations true true true true

/-- A one-instance detection sample record. -/
def ocrRecord : SampleRecord := { instances := [fullInstance] }

/-- A record with no instances. -/
def emptyRecord : SampleRecord := { instances := [] }

/-- A record with no instances but an image shape, for the KIE loader. -/
def emptyKIERecord : SampleRecord := { instances := [], img_shape := some (1, 1) }

/-- A detection instance lacking only `polygon`. -/
def noPolyInstance : Instance :=
  { bbox := some [0, 0, 1, 1], bbox_label := some 0, ignore := some false,
    text := some "a" }

/-- A detection instance lacking only `text`. -/
def noTextInstance : Instance :=
  { bbox := some [0, 0, 1, 1], bbox_label := some 0,
    polygon := some [0, 0, 1, 0, 1, 1], ignore := some false }

/-! ### Helper lemmas about `collect` -/

theorem collect_length {β : Type} (f : Instance → Option β) :
    ∀ (l : List Instance) (ys : List β), collect f l = some ys →
      ys.length = l.length := by
  intro l
  induction l with
  | nil => intro ys h; simp [collect] at h; simp [← h]
  | cons a t ih =>
    intro ys h
    unfold collect at h
    cases hf : f a with
    | none => rw [hf] at h; simp at h
    | some b =>
      rw [hf] at h
      cases hc : collect f t with
      | none => rw [hc] at h; simp at h
      | some bs =>
        rw [hc] at h
        simp at h
        simp [← h, ih bs hc]

theorem collect_getElem {β : Type} (f : Instance → Option β) :
    ∀ (l : List Instance) (ys : List β), collect f l = some ys →
      ∀ (i : Nat) (hi : i < l.length) (hy : i < ys.length),
        f l[i] = some ys[i] := by
  intro l
  induction l with
  | nil => intro ys h i hi; exact absurd hi (by simp)
  | cons a t ih =>
    intro ys h i hi hy
    unfold collect at h
    cases hf : f a with
    | none => rw [hf] at h; simp at h
    | some b =>
      rw [hf] at h
      cases hc : collect f t with
      | none => rw [hc] at h; simp at h
      | some bs =>
        rw [hc] at h
        simp at h
        subst h
        cases i with
        | zero => simpa using hf
        | succ n =>
          simp only [List.getElem_cons_succ]
          exact ih bs hc n (by simpa using hi) (by simpa using hy)

theorem collect_getElem_total {β : Type} [Inhabited β] (f : Instance → Option β)
    (l : List Instance) (ys : List β) (h : collect f l = some ys)
    (i : Nat) (hi : i < l.length) : f l[i]! = some ys[i]! := by
  have hy : i < ys.length := by rw [collect_length f l ys h]; exact hi
  rw [getElem!_pos l i hi, getElem!_pos ys i hy]
  exact collect_getElem f l ys h i hi hy

theorem collect_eq_none_of_mem {β : Type} (f : Instance → Option β)
    (l : List Instance) (a : Instance) (ha : a ∈ l) (hfa : f a = none) :
    collect f l = none := by
  induction l with
  | nil => simp at ha
  | cons b t ih =>
    rcases List.mem_cons.mp ha with h | h
    · subst h; simp [collect, hfa]
    · unfold collect
      rw [ih h]
      cases f b <;> simp

theorem collect_isSome_of_forall {β : Type} (f : Instance → Option β)
    (l : List Instance) (h : ∀ a ∈ l, (f a).isSome) :
    (collect f l).isSome := by
  induction l with
  | nil => simp [collect]
  | cons a t ih =>
    obtain ⟨b, hb⟩ := Option.isSome_iff_exists.mp (h a (by simp))
    have ht := ih (fun x hx => h x (by simp [hx]))
    obtain ⟨bs, hbs⟩ := Option.isSome_iff_exists.mp ht
    simp [collect, hb, hbs]

/-! ### Helper lemmas about the edge-label matrix pipeline -/

theorem getElem2_of_lt (m : List (List Int)) (i j : Nat)
    (hm : i < m.length) (hr : j < m[i].length) : (m[i]!)[j]! = m[i][j] := by
  rw [getElem!_pos m i hm, getElem!_pos (m[i]) j hr]

theorem length_computeEdgeLabels (d : Bool) (kv : Option (Int × Int))
    (bl el : List Int) (hb : bl.length = el.length) :
    (computeEdgeLabels d kv bl el).length = el.length := by
  unfold computeEdgeLabels
  cases kv <;> cases d <;>
    simp [fillDiagonal, keyValueMask, directedMask, connectivityMatrix, hb]

theorem row_length_computeEdgeLabels (d : Bool) (kv : Option (Int × Int))
    (bl el : List Int) (hb : bl.length = el.length) (i : Nat)
    (hm : i < (computeEdgeLabels d kv bl el).length) :
    (computeEdgeLabels d kv bl el)[i].length = el.length := by
  unfold computeEdgeLabels at hm ⊢
  cases kv <;> cases d <;>
    simp_all [fillDiagonal, keyValueMask, directedMask, connectivityMatrix, hb]

theorem getElem_computeEdgeLabels_plain (bl el : List Int) (i j : Nat)
    (hi : i < el.length) (hj : j < el.length)
    (hm : i < (computeEdgeLabels false none bl el).length)
    (hri : j < (computeEdgeLabels false none bl el)[i].length) :
    (computeEdgeLabels false none bl el)[i][j] =
      if i = j then -1 else if el[i] = el[j] then 1 else 0 := by
  unfold computeEdgeLabels
  simp [fillDiagonal, connectivityMatrix]

theorem getElem_computeEdgeLabels_directed (bl el : List Int) (i j : Nat)
    (hi : i < el.length) (hj : j < el.length) (hjb : j < bl.length)
    (hm : i < (computeEdgeLabels true none bl el).length)
    (hri : j < (computeEdgeLabels true none bl el)[i].length) :
    (computeEdgeLabels true none bl el)[i][j] =
      if i = j then -1
      else if Int.land (if el[i] = el[j] then 1 else 0) bl[j] = 1 then 1 else 0 := by
  unfold computeEdgeLabels
  simp [fillDiagonal, directedMask, connectivityMatrix]

theorem getElem_computeEdgeLabels_kv_out (d : Bool) (k v : Int)
    (bl el : List Int) (i j : Nat)
    (hib : i < bl.length) (hjb : j < bl.length)
    (hmask : ¬(bl[i] = k ∧ bl[j] = v))
    (hm : i < (computeEdgeLabels d (some (k, v)) bl el).length)
    (hri : j < (computeEdgeLabels d (some (k, v)) bl el)[i].length) :
    (computeEdgeLabels d (some (k, v)) bl el)[i][j] = -1 := by
  unfold computeEdgeLabels
  cases d <;>
    simp [fillDiagonal, keyValueMask, directedMask, connectivityMatrix, hmask]

theorem getElem_computeEdgeLabels_diag (d : Bool) (kv : Option (Int × Int))
    (bl el : List Int) (i : Nat)
    (hm : i < (computeEdgeLabels d kv bl el).length)
    (hri : i < (computeEdgeLabels d kv bl el)[i].length) :
    (computeEdgeLabels d kv bl el)[i][i] = -1 := by
  unfold computeEdgeLabels
  rcases kv with _ | p <;> cases d <;>
    simp [fillDiagonal, keyValueMask, directedMask, connectivityMatrix]

/-! ### Helper lemmas about `loadKIELabels` -/

theorem loadLabelPair_eq (a : Instance) (p : Int × Int)
    (h : loadLabelPair a = some p) :
    a.bbox_label = some p.1 ∧ a.edge_label = some p.2 := by
  unfold loadLabelPair at h
  rcases p with ⟨p1, p2⟩
  cases hb : a.bbox_label with
  | none => rw [hb] at h; simp at h
  | some b =>
    cases he : a.edge_label with
    | none => rw [hb, he] at h; simp at h
    | some e =>
      rw [hb, he] at h
      simp at h
      simp [hb, he, h.1, h.2]

theorem loadKIELabels_eq (c : LoadKIEAnnotations) (insts : List Instance)
    (bl : List Int) (m : List (List Int))
    (h : loadKIELabels c insts = some (bl, m)) :
    ∃ pairs, collect loadLabelPair insts = some pairs ∧
      bl = pairs.map Prod.fst ∧
      m = computeEdgeLabels c.directed c.kv (pairs.map Prod.fst)
        (pairs.map Prod.snd) := by
  unfold loadKIELabels at h
  cases hc : collect loadLabelPair insts with
  | none => rw [hc] at h; simp at h
  | some pairs =>
    rw [hc] at h
    simp at h
    exact ⟨pairs, rfl, h.1.symm, h.2.symm⟩

theorem loadKIELabels_isSome (c : LoadKIEAnnotations) (insts : List Instance)
    (h : ∀ a ∈ insts, a.bbox_label.isSome ∧ a.edge_label.isSome) :
    (loadKIELabels c insts).isSome := by
  have hc : (collect loadLabelPair insts).isSome := by
    refine collect_isSome_of_forall _ _ (fun a ha => ?_)
    obtain ⟨hb, he⟩ := h a ha
    obtain ⟨b, hb'⟩ := Option.isSome_iff_exists.mp hb
    obtain ⟨e, he'⟩ := Option.isSome_iff_exists.mp he
    simp [loadLabelPair, hb', he']
  obtain ⟨p, hp⟩ := Option.isSome_iff_exists.mp hc
  simp [loadKIELabels, hp]


/-! ### Helper lemmas about the transforms -/

theorem orShape_idem (a b : Option (Nat × Nat)) :
    orShape (orShape a b) b = orShape a b := by
  cases a <;> cases b <;> rfl

theorem applyOCR_idem (c : LoadOCRAnnotations) (r : SampleRecord) :
    applyOCR c (applyOCR c r) = applyOCR c r := by
  obtain ⟨b1, b2, b3, b4, b5⟩ := c
  cases b1 <;> cases b2 <;> cases b3 <;> cases b4 <;> cases b5 <;>
    simp [applyOCR]

theorem applyKIE_idem (c : LoadKIEAnnotations) (r : SampleRecord) :
    applyKIE c (applyKIE c r) = applyKIE c r := by
  obtain ⟨b1, b2, b3, d, kv⟩ := c
  cases b1 <;> cases b2 <;> cases b3 <;>
    simp [applyKIE, orShape_idem]


theorem ocrTransform_of_isSome (c : LoadOCRAnnotations) (r : SampleRecord)
    (h1 : c.with_bbox = true → (collect Instance.bbox r.instances).isSome)
    (h2 : c.with_label = true → (collect Instance.bbox_label r.instances).isSome)
    (h3 : c.with_polygon = true → (collect Instance.polygon r.instances).isSome)
    (h4 : c.with_text = true → (collect Instance.text r.instances).isSome)
    (h5 : c.with_ignore = true → (collect Instance.ignore r.instances).isSome) :
    c.transform r = (applyOCR c r, none) := by
  obtain ⟨b1, b2, b3, b4, b5⟩ := c
  simp only at h1 h2 h3 h4 h5
  have s1 : loadStep b1 "bbox" loadBboxesStep r =
      ({ r with gt_bboxes :=
          if b1 then collect Instance.bbox r.instances else r.gt_bboxes }, none) := by
    cases b1 with
    | false => simp [loadStep]
    | true =>
      obtain ⟨l, hl⟩ := Option.isSome_iff_exists.mp (h1 rfl)
      simp [loadStep, loadBboxesStep, hl]
  have s2 : loadStep b2 "bbox_label" loadBboxLabelsStep
      { r with gt_bboxes :=
          if b1 then collect Instance.bbox r.instances else r.gt_bboxes } =
      ({ r with
          gt_bboxes := if b1 then collect Instance.bbox r.instances else r.gt_bboxes,
          gt_bboxes_labels :=
            if b2 then collect Instance.bbox_label r.instances
            else r.gt_bboxes_labels }, none) := by
    cases b2 with
    | false => simp [loadStep]
    | true =>
      obtain ⟨l, hl⟩ := Option.isSome_iff_exists.mp (h2 rfl)
      simp [loadStep, loadBboxLabelsStep, hl]
  have s3 : loadStep b3 "polygon" loadPolygonsStep
      { r with
          gt_bboxes := if b1 then collect Instance.bbox r.instances else r.gt_bboxes,
          gt_bboxes_labels :=
            if b2 then collect Instance.bbox_label r.instances
            else r.gt_bboxes_labels } =
      ({ r with
          gt_bboxes := if b1 then collect Instance.bbox r.instances else r.gt_bboxes,
          gt_bboxes_labels :=
            if b2 then collect Instance.bbox_label r.instances
            else r.gt_bboxes_labels,
          gt_polygons :=
            if b3 then collect Instance.polygon r.instances
            else r.gt_polygons }, none) := by
    cases b3 with
    | false => simp [loadStep]
    | true =>
      obtain ⟨l, hl⟩ := Option.isSome_iff_exists.mp (h3 rfl)
      simp [loadStep, loadPolygonsStep, hl]
  have s4 : loadStep b4 "text" loadTextsStep
      { r with
          gt_bboxes := if b1 then collect Instance.bbox r.instances else r.gt_bboxes,
          gt_bboxes_labels :=
            if b2 then collect Instance.bbox_label r.instances
            else r.gt_bboxes_labels,
          gt_polygons :=
            if b3 then collect Instance.polygon r.instances
            else r.gt_polygons } =
      ({ r with
          gt_bboxes := if b1 then collect Instance.bbox r.instances else r.gt_bboxes,
          gt_bboxes_labels :=
            if b2 then collect Instance.bbox_label r.instances
            else r.gt_bboxes_labels,
          gt_polygons :=
            if b3 then collect Instance.polygon r.instances
            else r.gt_polygons,
          gt_texts :=
            if b4 then collect Instance.text r.instances
            else r.gt_texts }, none) := by
    cases b4 with
    | false => simp [loadStep]
    | true =>
      obtain ⟨l, hl⟩ := Option.isSome_iff_exists.mp (h4 rfl)
      simp [loadStep, loadTextsStep, hl]
  have s5 : loadStep b5 "ignore" loadIgnoreFlagsStep
      { r with
          gt_bboxes := if b1 then collect Instance.bbox r.instances else r.gt_bboxes,
          gt_bboxes_labels :=
            if b2 then collect Instance.bbox_label r.instances
            else r.gt_bboxes_labels,
          gt_polygons :=
            if b3 then collect Instance.polygon r.instances
            else r.gt_polygons,
          gt_texts :=
            if b4 then collect Instance.text r.instances
            else r.gt_texts } =
      ({ r with
          gt_bboxes := if b1 then collect Instance.bbox r.instances else r.gt_bboxes,
          gt_bboxes_labels :=
            if b2 then collect Instance.bbox_label r.instances
            else r.gt_bboxes_labels,
          gt_polygons :=
            if b3 then collect Instance.polygon r.instances
            else r.gt_polygons,
          gt_texts :=
            if b4 then collect Instance.text r.instances
            else r.gt_texts,
          gt_ignored :=
            if b5 then collect Instance.ignore r.instances
            else r.gt_ignored }, none) := by
    cases b5 with
    | false => simp [loadStep]
    | true =>
      obtain ⟨l, hl⟩ := Option.isSome_iff_exists.mp (h5 rfl)
      simp [loadStep, loadIgnoreFlagsStep, hl]
  show andThen (andThen (andThen (andThen
      (loadStep b1 "bbox" loadBboxesStep r)
      (loadStep b2 "bbox_label" loadBboxLabelsStep))
      (loadStep b3 "polygon" loadPolygonsStep))
      (loadStep b4 "text" loadTextsStep))
      (loadStep b5 "ignore" loadIgnoreFlagsStep) = (applyOCR ⟨b1, b2, b3, b4, b5⟩ r, none)
  rw [s1]
  simp only [andThen]
  rw [s2]
  simp only [andThen]
  rw [s3]
  simp only [andThen]
  rw [s4]
  simp only [andThen]
  rw [s5]
  rfl

theorem kieTransform_of_isSome (c : LoadKIEAnnotations) (r : SampleRecord)
    (h0 : r.ori_shape.isSome ∨ r.img_shape.isSome)
    (h1 : c.with_bbox = true → (collect Instance.bbox r.instances).isSome)
    (h2 : c.with_label = true → (loadKIELabels c r.instances).isSome)
    (h3 : c.with_text = true → (collect Instance.text r.instances).isSome) :
    c.transform r = (applyKIE c r, none) := by
  have s0 : oriShapeStep r =
      ({ r with ori_shape := orShape r.ori_shape r.img_shape }, none) := by
    cases ho : r.ori_shape with
    | some s =>
      simp only [oriShapeStep, orShape, ho]
      rw [← ho]
    | none =>
      cases hi : r.img_shape with
      | some s => simp [oriShapeStep, orShape, ho, hi]
      | none => rw [ho] at h0; rw [hi] at h0; simp at h0
  have s1 : loadStep c.with_bbox "bbox" loadBboxesStep
      { r with ori_shape := orShape r.ori_shape r.img_shape } =
      ({ r with
          ori_shape := orShape r.ori_shape r.img_shape,
          gt_bboxes :=
            if c.with_bbox then collect Instance.bbox r.instances
            else r.gt_bboxes }, none) := by
    cases hb : c.with_bbox with
    | false => simp [loadStep]
    | true =>
      obtain ⟨l, hl⟩ := Option.isSome_iff_exists.mp (h1 hb)
      simp [loadStep, loadBboxesStep, hl]
  have s2 : loadStep c.with_label "label" (loadKIELabelsStep c)
      { r with
          ori_shape := orShape r.ori_shape r.img_shape,
          gt_bboxes :=
            if c.with_bbox then collect Instance.bbox r.instances
            else r.gt_bboxes } =
      ({ r with
          ori_shape := orShape r.ori_shape r.img_shape,
          gt_bboxes :=
            if c.with_bbox then collect Instance.bbox r.instances
            else r.gt_bboxes,
          gt_bboxes_labels :=
            if c.with_label then (loadKIELabels c r.instances).map Prod.fst
            else r.gt_bboxes_labels,
          gt_edges_labels :=
            if c.with_label then (loadKIELabels c r.instances).map Prod.snd
            else r.gt_edges_labels }, none) := by
    cases hb : c.with_label with
    | false => simp [loadStep]
    | true =>
      obtain ⟨p, hp⟩ := Option.isSome_iff_exists.mp (h2 hb)
      simp [loadStep, loadKIELabelsStep, hp]
  have s3 : loadStep c.with_text "text" loadTextsStep
      { r with
          ori_shape := orShape r.ori_shape r.img_shape,
          gt_bboxes :=
            if c.with_bbox then collect Instance.bbox r.instances
            else r.gt_bboxes,
          gt_bboxes_labels :=
            if c.with_label then (loadKIELabels c r.instances).map Prod.fst
            else r.gt_bboxes_labels,
          gt_edges_labels :=
            if c.with_label then (loadKIELabels c r.instances).map Prod.snd
            else r.gt_edges_labels } =
      ({ r with
          ori_shape := orShape r.ori_shape r.img_shape,
          gt_bboxes :=
            if c.with_bbox then collect Instance.bbox r.instances
            else r.gt_bboxes,
          gt_bboxes_labels :=
            if c.with_label then (loadKIELabels c r.instances).map Prod.fst
            else r.gt_bboxes_labels,
          gt_edges_labels :=
            if c.with_label then (loadKIELabels c r.instances).map Prod.snd
            else r.gt_edges_labels,
          gt_texts :=
            if c.with_text then collect Instance.text r.instances
            else r.gt_texts }, none) := by
    cases hb : c.with_text with
    | false => simp [loadStep]
    | true =>
      obtain ⟨l, hl⟩ := Option.isSome_iff_exists.mp (h3 hb)
      simp [loadStep, loadTextsStep, hl]
  show andThen (andThen (andThen
      (oriShapeStep r)
      (loadStep c.with_bbox "bbox" loadBboxesStep))
      (loadStep c.with_label "label" (loadKIELabelsStep c)))
      (loadStep c.with_text "text" loadTextsStep) = (applyKIE c r, none)
  rw [s0]
  simp only [andThen]
  rw [s1]
  simp only [andThen]
  rw [s2]
  simp only [andThen]
  rw [s3]
  rfl


theorem loadKIELabels_lengths (c : LoadKIEAnnotations) (insts : List Instance)
    (bl : List Int) (m : List (List Int))
    (h : loadKIELabels c insts = some (bl, m)) :
    bl.length = insts.length ∧ m.length = insts.length ∧
    ∀ i (hmi : i < m.length), m[i].length = insts.length := by
  obtain ⟨pairs, hc, hbl, hm⟩ := loadKIELabels_eq c insts bl m h
  have hp : pairs.length = insts.length := collect_length _ _ _ hc
  have hb : (pairs.map Prod.fst).length = (pairs.map Prod.snd).length := by simp
  subst hm
  subst hbl
  refine ⟨by simp [hp], ?_, ?_⟩
  · rw [length_computeEdgeLabels _ _ _ _ hb]
    simp [hp]
  · intro i hmi
    rw [row_length_computeEdgeLabels _ _ _ _ hb i hmi]
    simp [hp]

theorem loadKIELabels_diag (c : LoadKIEAnnotations) (insts : List Instance)
    (bl : List Int) (m : List (List Int))
    (h : loadKIELabels c insts = some (bl, m))
    (i : Nat) (hmi : i < m.length) (hri : i < m[i].length) :
    m[i][i] = -1 := by
  obtain ⟨pairs, hc, hbl, hm⟩ := loadKIELabels_eq c insts bl m h
  subst hm
  exact getElem_computeEdgeLabels_diag _ _ _ _ i hmi hri

theorem loadKIELabels_symm (c : LoadKIEAnnotations) (insts : List Instance)
    (bl : List Int) (m : List (List Int))
    (hd : c.directed = false) (hkv : c.kv = none)
    (h : loadKIELabels c insts = some (bl, m))
    (i j : Nat) (hi : i < insts.length) (hj : j < insts.length)
    (hmi : i < m.length) (hmj : j < m.length)
    (hri : j < m[i].length) (hrj : i < m[j].length) :
    m[i][j] = m[j][i] := by
  obtain ⟨pairs, hc, hbl, hm⟩ := loadKIELabels_eq c insts bl m h
  have hp : pairs.length = insts.length := collect_length _ _ _ hc
  rw [hd, hkv] at hm
  subst hm
  have hi' : i < (pairs.map Prod.snd).length := by simpa [hp] using hi
  have hj' : j < (pairs.map Prod.snd).length := by simpa [hp] using hj
  rw [getElem_computeEdgeLabels_plain _ _ i j hi' hj' hmi hri,
      getElem_computeEdgeLabels_plain _ _ j i hj' hi' hmj hrj]
  rcases eq_or_ne i j with hij | hij
  · subst hij
    rfl
  · rw [if_neg hij, if_neg (Ne.symm hij)]
    rcases eq_or_ne (pairs.map Prod.snd)[i] (pairs.map Prod.snd)[j] with he | he
    · rw [if_pos he, if_pos he.symm]
    · rw [if_neg he, if_neg (fun hh => he hh.symm)]


theorem loadKIELabels_kv_out (c : LoadKIEAnnotations) (insts : List Instance)
    (bl : List Int) (m : List (List Int)) (k v : Int)
    (hkv : c.kv = some (k, v))
    (h : loadKIELabels c insts = some (bl, m))
    (i j : Nat) (hbli : i < bl.length) (hblj : j < bl.length)
    (hmi : i < m.length) (hri : j < m[i].length)
    (hmask : ¬(bl[i] = k ∧ bl[j] = v)) :
    m[i][j] = -1 := by
  obtain ⟨pairs, hc, hbl, hm⟩ := loadKIELabels_eq c insts bl m h
  rw [hkv] at hm
  subst hm
  subst hbl
  exact getElem_computeEdgeLabels_kv_out c.directed k v _ _ i j hbli hblj hmask hmi hri

theorem loadKIELabels_directed_entry (c : LoadKIEAnnotations)
    (insts : List Instance) (bl : List Int) (m : List (List Int))
    (hd : c.directed = true) (hkv : c.kv = none)
    (h : loadKIELabels c insts = some (bl, m))
    (i j : Nat) (hi : i < insts.length) (hj : j < insts.length) (hne : i ≠ j)
    (hblj : j < bl.length) (hmi : i < m.length) (hri : j < m[i].length) :
    m[i][j] =
      if Int.land (if (insts[i]).edge_label = (insts[j]).edge_label then 1 else 0)
          bl[j] = 1 then 1 else 0 := by
  obtain ⟨pairs, hc, hbl, hm⟩ := loadKIELabels_eq c insts bl m h
  have hp : pairs.length = insts.length := collect_length _ _ _ hc
  rw [hd, hkv] at hm
  subst hm
  subst hbl
  have hpi : i < pairs.length := by rw [hp]; exact hi
  have hpj : j < pairs.length := by rw [hp]; exact hj
  have hi' : i < (pairs.map Prod.snd).length := by simpa using hpi
  have hj' : j < (pairs.map Prod.snd).length := by simpa using hpj
  have hEi := (loadLabelPair_eq _ _ (collect_getElem loadLabelPair insts pairs hc i hi hpi)).2
  have hEj := (loadLabelPair_eq _ _ (collect_getElem loadLabelPair insts pairs hc j hj hpj)).2
  rw [getElem_computeEdgeLabels_directed _ _ i j hi' hj' hblj hmi hri]
  rw [if_neg hne]
  rw [hEi, hEj]
  simp only [Option.some.injEq, List.getElem_map]


/-- C1 (counterexample): the claim reads the `directed` restriction as an AND
with the ROW node label `bbox_label[i]`.  At `edge_label = [0,0]`,
`bbox_label = [1,0]` the raw connectivity at (0,1) is 1 and the row-0 label is
1, so the claim predicts entry (0,1) = 1; the code broadcasts `bbox_labels`
over columns and produces 0 there (the column-1 label is 0). -/
theorem C1_counterexample :
    loadKIELabels kieDirectedCfg [kieInstance 1 0, kieInstance 0 0] =
      some ([1, 0], [[-1, 0], [1, -1]]) ∧
    Int.land (if (0 : Int) = 0 then 1 else 0) (([1, 0] : List Int)[0]!) = 1 ∧
    ¬((([[-1, 0], [1, -1]] : List (List Int))[0]!)[1]! = 1) := by
  decide

/-- C1 (amended): with `directed` enabled and no key/value pair, for i ≠ j the
entry (i,j) of `gt_edges_labels` equals 1 exactly when the bitwise AND of the
raw connectivity value with the COLUMN node label `bbox_label[j]` equals 1,
and equals 0 otherwise. -/
theorem C1_directed_column_label (c : LoadKIEAnnotations)
    (insts : List Instance) (bl : List Int) (m : List (List Int))
    (hd : c.directed = true) (hkv : c.kv = none)
    (h : loadKIELabels c insts = some (bl, m))
    (i j : Nat) (hi : i < insts.length) (hj : j < insts.length) (hne : i ≠ j) :
    ((m[i]!)[j]!) =
      if Int.land
          (if (insts[i]!).edge_label = (insts[j]!).edge_label then 1 else 0)
          (bl[j]!) = 1 then 1 else 0 := by
  obtain ⟨hbl, hmlen, hrow⟩ := loadKIELabels_lengths c insts bl m h
  have hmi : i < m.length := by rw [hmlen]; exact hi
  have hri : j < m[i].length := by rw [hrow i hmi]; exact hj
  have hblj : j < bl.length := by rw [hbl]; exact hj
  rw [getElem2_of_lt m i j hmi hri, getElem!_pos insts i hi,
    getElem!_pos insts j hj, getElem!_pos bl j hblj]
  exact loadKIELabels_directed_entry c insts bl m hd hkv h i j hi hj hne hblj hmi hri

/-- Witness for C1 at the counterexample's input, (i,j) = (1,0). -/
theorem C1_witness :
    ((([[-1, 0], [1, -1]] : List (List Int))[1]!)[0]!) =
      if Int.land
          (if (([kieInstance 1 0, kieInstance 0 0] : List Instance)[1]!).edge_label =
              (([kieInstance 1 0, kieInstance 0 0] : List Instance)[0]!).edge_label
            then 1 else 0)
          (([1, 0] : List Int)[0]!) = 1 then 1 else 0 :=
  C1_directed_column_label kieDirectedCfg [kieInstance 1 0, kieInstance 0 0]
    [1, 0] [[-1, 0], [1, -1]] rfl rfl (by decide) 1 0 (by decide) (by decide)
    (by decide)

/-- C2: with `directed` disabled and no key/value pair configured, three
instances with `edge_label = [1,1,2]` and `bbox_label = [0,0,0]` produce
`gt_edges_labels = [[-1,1,0],[1,-1,0],[0,0,-1]]`. -/
theorem C2_concrete_edge_matrix :
    loadKIELabels kiePlainCfg
      [kieInstance 0 1, kieInstance 0 1, kieInstance 0 2] =
      some ([0, 0, 0], [[-1, 1, 0], [1, -1, 0], [0, 0, -1]]) := by
  decide

/-- C3: for every KIE configuration, when label loading succeeds on N
instances, the produced `gt_edges_labels` matrix is N×N and every diagonal
entry equals -1. -/
theorem C3_edges_square_diagonal (c : LoadKIEAnnotations)
    (insts : List Instance) (bl : List Int) (m : List (List Int))
    (h : loadKIELabels c insts = some (bl, m)) :
    m.length = insts.length ∧
    ∀ i, i < insts.length →
      (m[i]!).length = insts.length ∧ ((m[i]!)[i]!) = -1 := by
  obtain ⟨hbl, hmlen, hrow⟩ := loadKIELabels_lengths c insts bl m h
  refine ⟨hmlen, fun i hi => ?_⟩
  have hmi : i < m.length := by rw [hmlen]; exact hi
  have hrl := hrow i hmi
  have hri : i < m[i].length := by rw [hrl]; exact hi
  refine ⟨?_, ?_⟩
  · rw [getElem!_pos m i hmi]
    exact hrl
  · rw [getElem2_of_lt m i i hmi hri]
    exact loadKIELabels_diag c insts bl m h i hmi hri

/-- Witness for C3 at a concrete directed input. -/
theorem C3_witness :
    ([[-1, 0], [1, -1]] : List (List Int)).length = 2 ∧
    ∀ i, i < 2 →
      ((([[-1, 0], [1, -1]] : List (List Int))[i]!).length = 2 ∧
        ((([[-1, 0], [1, -1]] : List (List Int))[i]!)[i]!) = -1) :=
  C3_edges_square_diagonal kieDirectedCfg [kieInstance 1 0, kieInstance 0 0]
    [1, 0] [[-1, 0], [1, -1]] (by decide)

/-- C4: with `directed` disabled and no key/value pair, `gt_edges_labels` is
symmetric. -/
theorem C4_undirected_symmetric (c : LoadKIEAnnotations)
    (insts : List Instance) (bl : List Int) (m : List (List Int))
    (hd : c.directed = false) (hkv : c.kv = none)
    (h : loadKIELabels c insts = some (bl, m))
    (i j : Nat) (hi : i < insts.length) (hj : j < insts.length) :
    ((m[i]!)[j]!) = ((m[j]!)[i]!) := by
  obtain ⟨hbl, hmlen, hrow⟩ := loadKIELabels_lengths c insts bl m h
  have hmi : i < m.length := by rw [hmlen]; exact hi
  have hmj : j < m.length := by rw [hmlen]; exact hj
  have hri : j < m[i].length := by rw [hrow i hmi]; exact hj
  have hrj : i < m[j].length := by rw [hrow j hmj]; exact hi
  rw [getElem2_of_lt m i j hmi hri, getElem2_of_lt m j i hmj hrj]
  exact loadKIELabels_symm c insts bl m hd hkv h i j hi hj hmi hmj hri hrj

/-- Witness for C4 at the C2 input, (i,j) = (0,2). -/
theorem C4_witness :
    ((([[-1, 1, 0], [1, -1, 0], [0, 0, -1]] : List (List Int))[0]!)[2]!) =
      ((([[-1, 1, 0], [1, -1, 0], [0, 0, -1]] : List (List Int))[2]!)[0]!) :=
  C4_undirected_symmetric kiePlainCfg
    [kieInstance 0 1, kieInstance 0 1, kieInstance 0 2] [0, 0, 0]
    [[-1, 1, 0], [1, -1, 0], [0, 0, -1]] rfl rfl (by decide) 0 2
    (by decide) (by decide)

/-- C5: with a key/value pair configured, every entry whose row label is not
`key_node_idx` or whose column label is not `value_node_idx` is -1. -/
theorem C5_kv_mask (c : LoadKIEAnnotations) (insts : List Instance)
    (bl : List Int) (m : List (List Int)) (k v : Int)
    (hkv : c.kv = some (k, v))
    (h : loadKIELabels c insts = some (bl, m))
    (i j : Nat) (hi : i < insts.length) (hj : j < insts.length)
    (hmask : ¬((bl[i]!) = k ∧ (bl[j]!) = v)) :
    ((m[i]!)[j]!) = -1 := by
  obtain ⟨hbl, hmlen, hrow⟩ := loadKIELabels_lengths c insts bl m h
  have hbli : i < bl.length := by rw [hbl]; exact hi
  have hblj : j < bl.length := by rw [hbl]; exact hj
  have hmi : i < m.length := by rw [hmlen]; exact hi
  have hri : j < m[i].length := by rw [hrow i hmi]; exact hj
  rw [getElem2_of_lt m i j hmi hri]
  refine loadKIELabels_kv_out c insts bl m k v hkv h i j hbli hblj hmi hri ?_
  rw [getElem!_pos bl i hbli, getElem!_pos bl j hblj] at hmask
  exact hmask

/-- Witness for C5 at `key_node_idx = 0`, `value_node_idx = 1`,
`bbox_label = [0,1,1]`, (i,j) = (1,0). -/
theorem C5_witness :
    ((([[-1, 1, 1], [-1, -1, -1], [-1, -1, -1]] : List (List Int))[1]!)[0]!) = -1 :=
  C5_kv_mask kieKVCfg [kieInstance 0 7, kieInstance 1 7, kieInstance 1 7]
    [0, 1, 1] [[-1, 1, 1], [-1, -1, -1], [-1, -1, -1]] 0 1 rfl (by decide)
    1 0 (by decide) (by decide) (by decide)


theorem computeEdgeLabels_nil (d : Bool) (kv : Option (Int × Int))
    (bl : List Int) : computeEdgeLabels d kv bl [] = [] := by
  rcases kv with _ | p <;> cases d <;>
    simp [computeEdgeLabels, fillDiagonal, keyValueMask, directedMask,
      connectivityMatrix]

theorem loadKIELabels_nil (c : LoadKIEAnnotations) :
    loadKIELabels c [] = some ([], []) := by
  simp [loadKIELabels, collect, computeEdgeLabels_nil]

theorem orShape_isSome (a b : Option (Nat × Nat))
    (h : a.isSome ∨ b.isSome) : (orShape a b).isSome := by
  cases a <;> cases b <;> simp_all [orShape]

/-- C6: constructing the KIE loader with exactly one of `key_node_idx` and
`value_node_idx` supplied fails with `ConfigurationError` at construction
time; supplying both or neither succeeds. -/
theorem C6_xor_construction (b l t d : Bool) (k v : Option Int) :
    (mkLoadKIEAnnotations b l t d k v = .error .ConfigurationError ↔
      ¬(k.isSome = v.isSome)) ∧
    ((∃ cfg, mkLoadKIEAnnotations b l t d k v = .ok cfg) ↔
      k.isSome = v.isSome) := by
  cases k <;> cases v <;> simp [mkLoadKIEAnnotations]

/-- Witness for C6: `key_node_idx` alone is rejected. -/
theorem C6_witness :
    mkLoadKIEAnnotations true true true false (some 0) none =
      .error .ConfigurationError :=
  (C6_xor_construction true true true false (some 0) none).1.mpr (by decide)

/-- C10: on a sample with no instances both loaders succeed under every
configuration, every enabled derived field comes out empty, and the KIE
edge-label matrix is 0×0. -/
theorem C10_empty_instances (c : LoadOCRAnnotations) (r : SampleRecord)
    (h : r.instances = [])
    (c' : LoadKIEAnnotations) (r' : SampleRecord) (h' : r'.instances = [])
    (ho : r'.ori_shape.isSome ∨ r'.img_shape.isSome) :
    (c.transform r).2 = none ∧
    (c.with_bbox = true → (c.transform r).1.gt_bboxes = some []) ∧
    (c.with_label = true → (c.transform r).1.gt_bboxes_labels = some []) ∧
    (c.with_polygon = true → (c.transform r).1.gt_polygons = some []) ∧
    (c.with_text = true → (c.transform r).1.gt_texts = some []) ∧
    (c.with_ignore = true → (c.transform r).1.gt_ignored = some []) ∧
    (c'.transform r').2 = none ∧
    (c'.with_bbox = true → (c'.transform r').1.gt_bboxes = some []) ∧
    (c'.with_label = true → (c'.transform r').1.gt_bboxes_labels = some [] ∧
      (c'.transform r').1.gt_edges_labels = some []) ∧
    (c'.with_text = true → (c'.transform r').1.gt_texts = some []) := by
  have e1 : c.transform r = (applyOCR c r, none) :=
    ocrTransform_of_isSome c r
      (fun _ => by rw [h]; rfl) (fun _ => by rw [h]; rfl)
      (fun _ => by rw [h]; rfl) (fun _ => by rw [h]; rfl)
      (fun _ => by rw [h]; rfl)
  have e2 : c'.transform r' = (applyKIE c' r', none) :=
    kieTransform_of_isSome c' r' ho
      (fun _ => by rw [h']; rfl) (fun _ => by rw [h']; rfl)
      (fun _ => by rw [h']; rfl)
  rw [e1, e2]
  refine ⟨rfl, ?_, ?_, ?_, ?_, ?_, rfl, ?_, ?_, ?_⟩ <;> intro hf
  · simp [applyOCR, hf, h, collect]
  · simp [applyOCR, hf, h, collect]
  · simp [applyOCR, hf, h, collect]
  · simp [applyOCR, hf, h, collect]
  · simp [applyOCR, hf, h, collect]
  · simp [applyKIE, hf, h', collect]
  · constructor <;> simp [applyKIE, hf, h', loadKIELabels_nil]
  · simp [applyKIE, hf, h', collect]

/-- Witness for C10 at concrete empty records. -/
theorem C10_witness :
    (ocrFullCfg.transform emptyRecord).2 = none ∧
    (ocrFullCfg.with_bbox = true →
      (ocrFullCfg.transform emptyRecord).1.gt_bboxes = some []) ∧
    (ocrFullCfg.with_label = true →
      (ocrFullCfg.transform emptyRecord).1.gt_bboxes_labels = some []) ∧
    (ocrFullCfg.with_polygon = true →
      (ocrFullCfg.transform emptyRecord).1.gt_polygons = some []) ∧
    (ocrFullCfg.with_text = true →
      (ocrFullCfg.transform emptyRecord).1.gt_texts = some []) ∧
    (ocrFullCfg.with_ignore = true →
      (ocrFullCfg.transform emptyRecord).1.gt_ignored = some []) ∧
    (kiePlainCfg.transform emptyKIERecord).2 = none ∧
    (kiePlainCfg.with_bbox = true →
      (kiePlainCfg.transform emptyKIERecord).1.gt_bboxes = some []) ∧
    (kiePlainCfg.with_label = true →
      (kiePlainCfg.transform emptyKIERecord).1.gt_bboxes_labels = some [] ∧
      (kiePlainCfg.transform emptyKIERecord).1.gt_edges_labels = some []) ∧
    (kiePlainCfg.with_text = true →
      (kiePlainCfg.transform emptyKIERecord).1.gt_texts = some []) :=
  C10_empty_instances ocrFullCfg emptyRecord rfl kiePlainCfg emptyKIERecord
    rfl (by decide)

/-- C9: both transforms are pure functions of `instances` and the fixed
configuration — re-running a transform on its own (successful) output
yields exactly the same result. -/
theorem C9_idempotent (c : LoadOCRAnnotations) (r : SampleRecord)
    (hb : ∀ a ∈ r.instances, a.bbox.isSome)
    (hl : ∀ a ∈ r.instances, a.bbox_label.isSome)
    (hp : ∀ a ∈ r.instances, a.polygon.isSome)
    (ht : ∀ a ∈ r.instances, a.text.isSome)
    (hg : ∀ a ∈ r.instances, a.ignore.isSome)
    (c' : LoadKIEAnnotations) (r' : SampleRecord)
    (ho : r'.ori_shape.isSome ∨ r'.img_shape.isSome)
    (hb' : ∀ a ∈ r'.instances, a.bbox.isSome)
    (hl' : ∀ a ∈ r'.instances, a.bbox_label.isSome ∧ a.edge_label.isSome)
    (ht' : ∀ a ∈ r'.instances, a.text.isSome) :
    c.transform ((c.transform r).1) = c.transform r ∧
    c'.transform ((c'.transform r').1) = c'.transform r' := by
  have m1 : c.transform r = (applyOCR c r, none) :=
    ocrTransform_of_isSome c r
      (fun _ => collect_isSome_of_forall _ _ hb)
      (fun _ => collect_isSome_of_forall _ _ hl)
      (fun _ => collect_isSome_of_forall _ _ hp)
      (fun _ => collect_isSome_of_forall _ _ ht)
      (fun _ => collect_isSome_of_forall _ _ hg)
  have m2 : c.transform (applyOCR c r) = (applyOCR c (applyOCR c r), none) :=
    ocrTransform_of_isSome c (applyOCR c r)
      (fun _ => collect_isSome_of_forall _ _ hb)
      (fun _ => collect_isSome_of_forall _ _ hl)
      (fun _ => collect_isSome_of_forall _ _ hp)
      (fun _ => collect_isSome_of_forall _ _ ht)
      (fun _ => collect_isSome_of_forall _ _ hg)
  have k1 : c'.transform r' = (applyKIE c' r', none) :=
    kieTransform_of_isSome c' r' ho
      (fun _ => collect_isSome_of_forall _ _ hb')
      (fun _ => loadKIELabels_isSome c' _ hl')
      (fun _ => collect_isSome_of_forall _ _ ht')
  have k2 : c'.transform (applyKIE c' r') =
      (applyKIE c' (applyKIE c' r'), none) :=
    kieTransform_of_isSome c' (applyKIE c' r')
      (Or.inl (orShape_isSome _ _ ho))
      (fun _ => collect_isSome_of_forall _ _ hb')
      (fun _ => loadKIELabels_isSome c' _ hl')
      (fun _ => collect_isSome_of_forall _ _ ht')
  constructor
  · rw [m1]
    show c.transform (applyOCR c r) = (applyOCR c r, none)
    rw [m2, applyOCR_idem]
  · rw [k1]
    show c'.transform (applyKIE c' r') = (applyKIE c' r', none)
    rw [k2, applyKIE_idem]

/-- Witness for C9 at concrete one-instance records. -/
theorem C9_witness :
    ocrFullCfg.transform ((ocrFullCfg.transform ocrRecord).1) =
      ocrFullCfg.transform ocrRecord ∧
    kiePlainCfg.transform ((kiePlainCfg.transform fullRecord).1) =
      kiePlainCfg.transform fullRecord :=
  C9_idempotent ocrFullCfg ocrRecord (by decide) (by decide) (by decide)
    (by decide) (by decide) kiePlainCfg fullRecord (by decide) (by decide)
    (by decide) (by decide)


theorem loadStep_bbox (b : Bool) (r : SampleRecord)
    (h : b = true → (collect Instance.bbox r.instances).isSome) :
    loadStep b "bbox" loadBboxesStep r =
      ({ r with gt_bboxes :=
          if b then collect Instance.bbox r.instances else r.gt_bboxes },
        none) := by
  cases b with
  | false => simp [loadStep]
  | true =>
    obtain ⟨l, hl⟩ := Option.isSome_iff_exists.mp (h rfl)
    simp [loadStep, loadBboxesStep, hl]

theorem loadStep_bbox_label (b : Bool) (r : SampleRecord)
    (h : b = true → (collect Instance.bbox_label r.instances).isSome) :
    loadStep b "bbox_label" loadBboxLabelsStep r =
      ({ r with gt_bboxes_labels :=
          if b then collect Instance.bbox_label r.instances
          else r.gt_bboxes_labels },
        none) := by
  cases b with
  | false => simp [loadStep]
  | true =>
    obtain ⟨l, hl⟩ := Option.isSome_iff_exists.mp (h rfl)
    simp [loadStep, loadBboxLabelsStep, hl]

theorem loadStep_polygon (b : Bool) (r : SampleRecord)
    (h : b = true → (collect Instance.polygon r.instances).isSome) :
    loadStep b "polygon" loadPolygonsStep r =
      ({ r with gt_polygons :=
          if b then collect Instance.polygon r.instances
          else r.gt_polygons },
        none) := by
  cases b with
  | false => simp [loadStep]
  | true =>
    obtain ⟨l, hl⟩ := Option.isSome_iff_exists.mp (h rfl)
    simp [loadStep, loadPolygonsStep, hl]

theorem loadStep_fail (field : String)
    (load : SampleRecord → Option SampleRecord) (r : SampleRecord)
    (h : load r = none) :
    loadStep true field load r = (r, some (.MissingFieldError field)) := by
  simp [loadStep, h]

/-- C7: when a switch's required per-instance field is missing, the detection
transform fails with `MissingFieldError`, and the fields written by the
earlier steps of the fixed order (base boxes/labels, then polygons, then
texts, then ignore flags) remain attached — nothing is rolled back. -/
theorem C7_missing_field_no_rollback (c : LoadOCRAnnotations)
    (r : SampleRecord) :
    (c.with_polygon = true →
      (c.with_bbox = true → (collect Instance.bbox r.instances).isSome) →
      (c.with_label = true → (collect Instance.bbox_label r.instances).isSome) →
      (∃ a ∈ r.instances, a.polygon = none) →
      c.transform r =
        ({ r with
            gt_bboxes :=
              if c.with_bbox then collect Instance.bbox r.instances
              else r.gt_bboxes,
            gt_bboxes_labels :=
              if c.with_label then collect Instance.bbox_label r.instances
              else r.gt_bboxes_labels },
          some (.MissingFieldError "polygon"))) ∧
    (c.with_text = true →
      (c.with_bbox = true → (collect Instance.bbox r.instances).isSome) →
      (c.with_label = true → (collect Instance.bbox_label r.instances).isSome) →
      (c.with_polygon = true → (collect Instance.polygon r.instances).isSome) →
      (∃ a ∈ r.instances, a.text = none) →
      c.transform r =
        ({ r with
            gt_bboxes :=
              if c.with_bbox then collect Instance.bbox r.instances
              else r.gt_bboxes,
            gt_bboxes_labels :=
              if c.with_label then collect Instance.bbox_label r.instances
              else r.gt_bboxes_labels,
            gt_polygons :=
              if c.with_polygon then collect Instance.polygon r.instances
              else r.gt_polygons },
          some (.MissingFieldError "text"))) := by
  constructor
  · intro hpoly h1 h2 hex
    obtain ⟨a, ha, hpa⟩ := hex
    have hcp : collect Instance.polygon r.instances = none :=
      collect_eq_none_of_mem _ _ a ha hpa
    show andThen (andThen (andThen (andThen
        (loadStep c.with_bbox "bbox" loadBboxesStep r)
        (loadStep c.with_label "bbox_label" loadBboxLabelsStep))
        (loadStep c.with_polygon "polygon" loadPolygonsStep))
        (loadStep c.with_text "text" loadTextsStep))
        (loadStep c.with_ignore "ignore" loadIgnoreFlagsStep) = _
    rw [loadStep_bbox c.with_bbox r h1]
    simp only [andThen]
    rw [loadStep_bbox_label c.with_label
      { r with gt_bboxes :=
          if c.with_bbox then collect Instance.bbox r.instances
          else r.gt_bboxes } h2]
    simp only [andThen]
    rw [hpoly, loadStep_fail "polygon" loadPolygonsStep
      { r with
          gt_bboxes :=
            if c.with_bbox then collect Instance.bbox r.instances
            else r.gt_bboxes,
          gt_bboxes_labels :=
            if c.with_label then collect Instance.bbox_label r.instances
            else r.gt_bboxes_labels }
      (by simp [loadPolygonsStep, hcp])]
  · intro htext h1 h2 h3 hex
    obtain ⟨a, ha, hta⟩ := hex
    have hct : collect Instance.text r.instances = none :=
      collect_eq_none_of_mem _ _ a ha hta
    show andThen (andThen (andThen (andThen
        (loadStep c.with_bbox "bbox" loadBboxesStep r)
        (loadStep c.with_label "bbox_label" loadBboxLabelsStep))
        (loadStep c.with_polygon "polygon" loadPolygonsStep))
        (loadStep c.with_text "text" loadTextsStep))
        (loadStep c.with_ignore "ignore" loadIgnoreFlagsStep) = _
    rw [loadStep_bbox c.with_bbox r h1]
    simp only [andThen]
    rw [loadStep_bbox_label c.with_label
      { r with gt_bboxes :=
          if c.with_bbox then collect Instance.bbox r.instances
          else r.gt_bboxes } h2]
    simp only [andThen]
    rw [loadStep_polygon c.with_polygon
      { r with
          gt_bboxes :=
            if c.with_bbox then collect Instance.bbox r.instances
            else r.gt_bboxes,
          gt_bboxes_labels :=
            if c.with_label then collect Instance.bbox_label r.instances
            else r.gt_bboxes_labels } h3]
    simp only [andThen]
    rw [htext, loadStep_fail "text" loadTextsStep
      { r with
          gt_bboxes :=
            if c.with_bbox then collect Instance.bbox r.instances
            else r.gt_bboxes,
          gt_bboxes_labels :=
            if c.with_label then collect Instance.bbox_label r.instances
            else r.gt_bboxes_labels,
          gt_polygons :=
            if c.with_polygon then collect Instance.polygon r.instances
            else r.gt_polygons }
      (by simp [loadTextsStep, hct])]

/-- Witness for C7: one instance lacking `polygon`, one lacking `text`. -/
theorem C7_witness :
    ocrFullCfg.transform { instances := [noPolyInstance] } =
      ({ instances := [noPolyInstance],
         gt_bboxes := some [[0, 0, 1, 1]],
         gt_bboxes_labels := some [0] },
        some (.MissingFieldError "polygon")) ∧
    ocrFullCfg.transform { instances := [noTextInstance] } =
      ({ instances := [noTextInstance],
         gt_bboxes := some [[0, 0, 1, 1]],
         gt_bboxes_labels := some [0],
         gt_polygons := some [[0, 0, 1, 0, 1, 1]] },
        some (.MissingFieldError "text")) := by
  constructor
  · have := (C7_missing_field_no_rollback ocrFullCfg
      { instances := [noPolyInstance] }).1 rfl (by decide) (by decide)
      ⟨noPolyInstance, by decide, rfl⟩
    simpa using this
  · have := (C7_missing_field_no_rollback ocrFullCfg
      { instances := [noTextInstance] }).2 rfl (by decide) (by decide)
      (by decide) ⟨noTextInstance, by decide, rfl⟩
    simpa using this


theorem loadKIELabels_bl_align (c : LoadKIEAnnotations) (insts : List Instance)
    (bl : List Int) (m : List (List Int))
    (h : loadKIELabels c insts = some (bl, m))
    (i : Nat) (hi : i < insts.length) :
    (insts[i]!).bbox_label = some (bl[i]!) := by
  obtain ⟨pairs, hc, hbl, hm⟩ := loadKIELabels_eq c insts bl m h
  subst hbl
  have hp : pairs.length = insts.length := collect_length _ _ _ hc
  have hpi : i < pairs.length := by rw [hp]; exact hi
  have h1 := (loadLabelPair_eq _ _
    (collect_getElem loadLabelPair insts pairs hc i hi hpi)).1
  rw [getElem!_pos insts i hi, h1]
  have h2 : i < (pairs.map Prod.fst).length := by simpa using hpi
  rw [getElem!_pos (pairs.map Prod.fst) i h2, List.getElem_map]

/-- C8: for well-formed samples, every produced per-instance field has
length N and its entry i is derived from `instances[i]` — no filtering or
reordering, for both loaders. -/
theorem C8_alignment (c : LoadOCRAnnotations) (r : SampleRecord)
    (hb : ∀ a ∈ r.instances, a.bbox.isSome)
    (hl : ∀ a ∈ r.instances, a.bbox_label.isSome)
    (hp : ∀ a ∈ r.instances, a.polygon.isSome)
    (ht : ∀ a ∈ r.instances, a.text.isSome)
    (hg : ∀ a ∈ r.instances, a.ignore.isSome)
    (c' : LoadKIEAnnotations) (r' : SampleRecord)
    (ho : r'.ori_shape.isSome ∨ r'.img_shape.isSome)
    (hb' : ∀ a ∈ r'.instances, a.bbox.isSome)
    (hl' : ∀ a ∈ r'.instances, a.bbox_label.isSome ∧ a.edge_label.isSome)
    (ht' : ∀ a ∈ r'.instances, a.text.isSome) :
    ((c.with_bbox = true → ∃ l, (c.transform r).1.gt_bboxes = some l ∧
        l.length = r.instances.length ∧
        ∀ i, i < r.instances.length → (r.instances[i]!).bbox = some (l[i]!)) ∧
      (c.with_label = true → ∃ l, (c.transform r).1.gt_bboxes_labels = some l ∧
        l.length = r.instances.length ∧
        ∀ i, i < r.instances.length →
          (r.instances[i]!).bbox_label = some (l[i]!)) ∧
      (c.with_polygon = true → ∃ l, (c.transform r).1.gt_polygons = some l ∧
        l.length = r.instances.length ∧
        ∀ i, i < r.instances.length →
          (r.instances[i]!).polygon = some (l[i]!)) ∧
      (c.with_text = true → ∃ l, (c.transform r).1.gt_texts = some l ∧
        l.length = r.instances.length ∧
        ∀ i, i < r.instances.length → (r.instances[i]!).text = some (l[i]!)) ∧
      (c.with_ignore = true → ∃ l, (c.transform r).1.gt_ignored = some l ∧
        l.length = r.instances.length ∧
        ∀ i, i < r.instances.length →
          (r.instances[i]!).ignore = some (l[i]!))) ∧
    ((c'.with_bbox = true → ∃ l, (c'.transform r').1.gt_bboxes = some l ∧
        l.length = r'.instances.length ∧
        ∀ i, i < r'.instances.length → (r'.instances[i]!).bbox = some (l[i]!)) ∧
      (c'.with_text = true → ∃ l, (c'.transform r').1.gt_texts = some l ∧
        l.length = r'.instances.length ∧
        ∀ i, i < r'.instances.length → (r'.instances[i]!).text = some (l[i]!)) ∧
      (c'.with_label = true → ∃ bl m,
        (c'.transform r').1.gt_bboxes_labels = some bl ∧
        (c'.transform r').1.gt_edges_labels = some m ∧
        bl.length = r'.instances.length ∧
        (∀ i, i < r'.instances.length →
          (r'.instances[i]!).bbox_label = some (bl[i]!)) ∧
        m.length = r'.instances.length ∧
        (∀ i, i < r'.instances.length →
          (m[i]!).length = r'.instances.length))) := by
  have m1 : c.transform r = (applyOCR c r, none) :=
    ocrTransform_of_isSome c r
      (fun _ => collect_isSome_of_forall _ _ hb)
      (fun _ => collect_isSome_of_forall _ _ hl)
      (fun _ => collect_isSome_of_forall _ _ hp)
      (fun _ => collect_isSome_of_forall _ _ ht)
      (fun _ => collect_isSome_of_forall _ _ hg)
  have k1 : c'.transform r' = (applyKIE c' r', none) :=
    kieTransform_of_isSome c' r' ho
      (fun _ => collect_isSome_of_forall _ _ hb')
      (fun _ => loadKIELabels_isSome c' _ hl')
      (fun _ => collect_isSome_of_forall _ _ ht')
  rw [m1, k1]
  constructor
  · refine ⟨?_, ?_, ?_, ?_, ?_⟩ <;> intro hf
    · obtain ⟨l, hcl⟩ := Option.isSome_iff_exists.mp
        (collect_isSome_of_forall Instance.bbox r.instances hb)
      exact ⟨l, by simp [applyOCR, hf, hcl], collect_length _ _ _ hcl,
        fun i hi => collect_getElem_total Instance.bbox r.instances l hcl i hi⟩
    · obtain ⟨l, hcl⟩ := Option.isSome_iff_exists.mp
        (collect_isSome_of_forall Instance.bbox_label r.instances hl)
      exact ⟨l, by simp [applyOCR, hf, hcl], collect_length _ _ _ hcl,
        fun i hi =>
          collect_getElem_total Instance.bbox_label r.instances l hcl i hi⟩
    · obtain ⟨l, hcl⟩ := Option.isSome_iff_exists.mp
        (collect_isSome_of_forall Instance.polygon r.instances hp)
      exact ⟨l, by simp [applyOCR, hf, hcl], collect_length _ _ _ hcl,
        fun i hi =>
          collect_getElem_total Instance.polygon r.instances l hcl i hi⟩
    · obtain ⟨l, hcl⟩ := Option.isSome_iff_exists.mp
        (collect_isSome_of_forall Instance.text r.instances ht)
      exact ⟨l, by simp [applyOCR, hf, hcl], collect_length _ _ _ hcl,
        fun i hi => collect_getElem_total Instance.text r.instances l hcl i hi⟩
    · obtain ⟨l, hcl⟩ := Option.isSome_iff_exists.mp
        (collect_isSome_of_forall Instance.ignore r.instances hg)
      exact ⟨l, by simp [applyOCR, hf, hcl], collect_length _ _ _ hcl,
        fun i hi =>
          collect_getElem_total Instance.ignore r.instances l hcl i hi⟩
  · refine ⟨?_, ?_, ?_⟩ <;> intro hf
    · obtain ⟨l, hcl⟩ := Option.isSome_iff_exists.mp
        (collect_isSome_of_forall Instance.bbox r'.instances hb')
      exact ⟨l, by simp [applyKIE, hf, hcl], collect_length _ _ _ hcl,
        fun i hi => collect_getElem_total Instance.bbox r'.instances l hcl i hi⟩
    · obtain ⟨l, hcl⟩ := Option.isSome_iff_exists.mp
        (collect_isSome_of_forall Instance.text r'.instances ht')
      exact ⟨l, by simp [applyKIE, hf, hcl], collect_length _ _ _ hcl,
        fun i hi => collect_getElem_total Instance.text r'.instances l hcl i hi⟩
    · obtain ⟨p, hkie⟩ := Option.isSome_iff_exists.mp
        (loadKIELabels_isSome c' r'.instances hl')
      obtain ⟨bl, m⟩ := p
      obtain ⟨hbl_len, hm_len, hrow⟩ :=
        loadKIELabels_lengths c' r'.instances bl m hkie
      refine ⟨bl, m, by simp [applyKIE, hf, hkie], by simp [applyKIE, hf, hkie],
        hbl_len, fun i hi => loadKIELabels_bl_align c' r'.instances bl m hkie i hi,
        hm_len, fun i hi => ?_⟩
      have hmi : i < m.length := by rw [hm_len]; exact hi
      rw [getElem!_pos m i hmi]
      exact hrow i hmi


/-- Witness for C8 at concrete one-instance records. -/
theorem C8_witness :
    ((ocrFullCfg.with_bbox = true → ∃ l,
        (ocrFullCfg.transform ocrRecord).1.gt_bboxes = some l ∧
        l.length = ocrRecord.instances.length ∧
        ∀ i, i < ocrRecord.instances.length →
          (ocrRecord.instances[i]!).bbox = some (l[i]!)) ∧
      (ocrFullCfg.with_label = true → ∃ l,
        (ocrFullCfg.transform ocrRecord).1.gt_bboxes_labels = some l ∧
        l.length = ocrRecord.instances.length ∧
        ∀ i, i < ocrRecord.instances.length →
          (ocrRecord.instances[i]!).bbox_label = some (l[i]!)) ∧
      (ocrFullCfg.with_polygon = true → ∃ l,
        (ocrFullCfg.transform ocrRecord).1.gt_polygons = some l ∧
        l.length = ocrRecord.instances.length ∧
        ∀ i, i < ocrRecord.instances.length →
          (ocrRecord.instances[i]!).polygon = some (l[i]!)) ∧
      (ocrFullCfg.with_text = true → ∃ l,
        (ocrFullCfg.transform ocrRecord).1.gt_texts = some l ∧
        l.length = ocrRecord.instances.length ∧
        ∀ i, i < ocrRecord.instances.length →
          (ocrRecord.instances[i]!).text = some (l[i]!)) ∧
      (ocrFullCfg.with_ignore = true → ∃ l,
        (ocrFullCfg.transform ocrRecord).1.gt_ignored = some l ∧
        l.length = ocrRecord.instances.length ∧
        ∀ i, i < ocrRecord.instances.length →
          (ocrRecord.instances[i]!).ignore = some (l[i]!))) ∧
    ((kiePlainCfg.with_bbox = true → ∃ l,
        (kiePlainCfg.transform fullRecord).1.gt_bboxes = some l ∧
        l.length = fullRecord.instances.length ∧
        ∀ i, i < fullRecord.instances.length →
          (fullRecord.instances[i]!).bbox = some (l[i]!)) ∧
      (kiePlainCfg.with_text = true → ∃ l,
        (kiePlainCfg.transform fullRecord).1.gt_texts = some l ∧
        l.length = fullRecord.instances.length ∧
        ∀ i, i < fullRecord.instances.length →
          (fullRecord.instances[i]!).text = some (l[i]!)) ∧
      (kiePlainCfg.with_label = true → ∃ bl m,
        (kiePlainCfg.transform fullRecord).1.gt_bboxes_labels = some bl ∧
        (kiePlainCfg.transform fullRecord).1.gt_edges_labels = some m ∧
        bl.length = fullRecord.instances.length ∧
        (∀ i, i < fullRecord.instances.length →
          (fullRecord.instances[i]!).bbox_label = some (bl[i]!)) ∧
        m.length = fullRecord.instances.length ∧
        (∀ i, i < fullRecord.instances.length →
          (m[i]!).length = fullRecord.instances.length))) :=
  C8_alignment ocrFullCfg ocrRecord (by decide) (by decide) (by decide)
    (by decide) (by decide) kiePlainCfg fullRecord (by decide) (by decide)
    (by decide) (by decide)

end MMOCR
